import Mathlib

/-!
Verification of the `yffpy` fantasy-football query client against its
specification. The repository's source under scrutiny is
`src/yffpy/query.py` (class `YahooFantasyFootballQuery`); the helper module
`yffpy/utils.py` (`unpack_data`, `reformat_json_list`) and the model module
`yffpy/models.py` are not present in the sources, so those operations are
modelled from the specification text, as noted on each definition.
-/

/-- JSON-decoded values as produced by `json.load` / `response.json()` in
Python: objects are ordered association lists (insertion order), matching
Python `dict` iteration order; `null` doubles as Python `None`, since
`json.load` maps JSON `null` to `None`. -/
inductive JsonV where
  | str (s : String)
  | num (n : Int)
  | bool (b : Bool)
  | null
  | arr (xs : List JsonV)
  | obj (fields : List (String × JsonV))
deriving Repr

/-- First-match lookup in an association list, i.e. Python `dict` lookup
(keys in a decoded JSON object are unique, so first match is the match). -/
def getKey (fields : List (String × JsonV)) (k : String) : Option JsonV :=
  match fields with
  | [] => none
  | (k', v) :: rest => if k' = k then some v else getKey rest k

/-- Values after unpacking: shaped like JSON, with the extra `model`
constructor for a plain mapping promoted to a named typed model
(`Game`, `League`, ...). Modelled from the spec: `yffpy/models.py` is absent
from the sources; per the spec a typed model is "a mapping-like structure
(preserves all original fields as attributes) plus ... the identity/type tag
of the matched model". -/
inductive UVal where
  | str (s : String)
  | num (n : Int)
  | bool (b : Bool)
  | null
  | arr (xs : List UVal)
  | obj (fields : List (String × UVal))
  | model (name : String) (fields : List (String × UVal))
deriving Repr

/-- First-match lookup in an unpacked association list. -/
def getKeyU (fields : List (String × UVal)) (k : String) : Option UVal :=
  match fields with
  | [] => none
  | (k', v) :: rest => if k' = k then some v else getKeyU rest k

/-- Parse a string as a non-negative integer (all characters decimal
digits, at least one digit). Used by the list-as-map quirk check. -/
def parseNonNegInt (s : String) : Option Nat :=
  let cs := s.toList
  if cs = [] then none
  else if cs.all Char.isDigit then
    some (cs.foldl (fun a c => a * 10 + (c.toNat - 48)) 0)
  else none

/-- Insert into a list of (numeric key, value) pairs keeping keys sorted
ascending (stable for equal keys). -/
def insertByKey (p : Nat × UVal) : List (Nat × UVal) → List (Nat × UVal)
  | [] => [p]
  | q :: qs => if p.1 ≤ q.1 then p :: q :: qs else q :: insertByKey p qs

/-- Insertion sort of (numeric key, value) pairs by ascending key. -/
def sortByKey : List (Nat × UVal) → List (Nat × UVal)
  | [] => []
  | p :: ps => insertByKey p (sortByKey ps)

/-- Insertion sort of naturals, ascending. -/
def insertNat (n : Nat) : List Nat → List Nat
  | [] => [n]
  | m :: ms => if n ≤ m then n :: m :: ms else m :: insertNat n ms

/-- Ascending insertion sort on naturals. -/
def sortNat : List Nat → List Nat
  | [] => []
  | n :: ns => insertNat n (sortNat ns)

/-- Modelled from the spec: the list-as-map quirk check of
`yffpy/utils.py` (absent from the sources). A mapping matches the quirk when
the literal key "count" is present, every other key parses as a non-negative
integer, and those integers form a contiguous range starting at 0. -/
def isQuirk (keys : List String) : Bool :=
  keys.contains "count" &&
  (let others := keys.filter (fun k => k ≠ "count")
   others.all (fun k => (parseNonNegInt k).isSome) &&
   sortNat (others.filterMap parseNonNegInt) == List.range others.length)

/-- The entries of a quirk mapping, minus "count", keyed by their parsed
integer index (entries whose key fails to parse are dropped; for a quirk
match there are none such). -/
def quirkEntries (fields : List (String × UVal)) : List (Nat × UVal) :=
  (fields.filter (fun p => p.1 ≠ "count")).filterMap
    (fun p => (parseNonNegInt p.1).map (fun n => (n, p.2)))

/-- Normalize a quirk mapping (already unpacked values): drop "count",
sort the remaining entries by ascending integer key, take the values. -/
def quirkValues (fields : List (String × UVal)) : List UVal :=
  (sortByKey (quirkEntries fields)).map Prod.snd

/-- The typed-model registry: mapping keys that are promoted to typed
models, per the import list of `src/yffpy/query.py` (Game, User, League,
Standings, Settings, Player) and the spec's snake-case-key naming
convention. Modelled from the spec: `yffpy/models.py` is absent from the
sources. -/
def modelRegistry : List (String × String) :=
  [("game", "Game"), ("user", "User"), ("league", "League"),
   ("standings", "Standings"), ("settings", "Settings"), ("player", "Player")]

/-- Promote one already-unpacked mapping entry: when the key matches a
registered typed model name and the value is a plain mapping, the value is
replaced by an instance of that model built from the value's own fields.
Modelled from the spec (§4.1 case 3). -/
def promoteEntry (p : String × UVal) : String × UVal :=
  match getKey (modelRegistry.map (fun q => (q.1, JsonV.str q.2))) p.1, p.2 with
  | some (JsonV.str name), UVal.obj fs => (p.1, UVal.model name fs)
  | _, _ => p

/- Modelled from the spec: `unpack_data` of `yffpy/utils.py` (absent from
the sources), per spec §4.1. Scalars are returned unchanged; ordered
sequences are unpacked elementwise, order preserved; a mapping matching the
list-as-map quirk is normalized to the ordered sequence of its non-"count"
values sorted by ascending integer key, each unpacked; any other mapping is
kept as a mapping with each value unpacked and then promoted to a typed
model when its key is registered. (Values are unpacked before the
key-driven quirk normalization / promotion; the quirk check and the sort
depend only on the keys, so this matches the spec's normalize-then-recurse
order.) -/
mutual

/-- Modelled from the spec: `unpack_data` of `yffpy/utils.py` (absent from
the sources), per spec §4.1; see the comment above this `mutual` block. -/
def unpack : JsonV → UVal
  | .str s => .str s
  | .num n => .num n
  | .bool b => .bool b
  | .null => .null
  | .arr xs => .arr (unpackList xs)
  | .obj fs =>
      let fs' := unpackFields fs
      if isQuirk (fs.map Prod.fst) then .arr (quirkValues fs')
      else .obj (fs'.map promoteEntry)

/-- Elementwise unpacking of an ordered sequence, order preserved
(spec §4.1 case 2). -/
def unpackList : List JsonV → List UVal
  | [] => []
  | x :: xs => unpack x :: unpackList xs

/-- Valuewise unpacking of a mapping's entries, keys untouched
(spec §4.1 case 3). -/
def unpackFields : List (String × JsonV) → List (String × UVal)
  | [] => []
  | (k, v) :: rest => (k, unpack v) :: unpackFields rest

end

/-- Python exception kinds that the embedded code can raise. -/
inductive PyError where
  | keyError (k : String)
  | attributeError
  | typeError
  | fileNotFoundError (path : String)
deriving Repr, DecidableEq

/-- An HTTP request as issued by `self.oauth.session.get(url, params=...)`:
the url and the query parameters. -/
structure HttpRequest where
  url : String
  params : List (String × String)
deriving Repr, DecidableEq

/-- The instance state of `YahooFantasyFootballQuery`
(src/yffpy/query.py lines 23–62). `game_id` and `league_id` are modelled as
strings (the code only ever concatenates them into URLs and keys).
`yahoo_consumer_key`, `yahoo_consumer_secret` and `yahoo_access_token` model
the attributes `_yahoo_consumer_key`, `_yahoo_consumer_secret` and
`_yahoo_access_token`; `none` means the attribute was never set. `oauth`
records the token file path the external `OAuth2` session was created from
(`none`: no session was created). -/
structure YahooFantasyFootballQuery where
  league_id : String
  game_id : Option String
  league_key : Option String
  offline : Bool
  yahoo_consumer_key : Option JsonV
  yahoo_consumer_secret : Option JsonV
  yahoo_access_token : Option JsonV
  oauth : Option String
deriving Repr

/-- Python truthiness of an optional string attribute (`None` and the empty
string are falsy). -/
def pyTruthy : Option String → Bool
  | none => false
  | some s => !s.isEmpty

/-- Modelled from the spec: `reformat_json_list` of `yffpy/utils.py` is
absent from the sources. Per spec §4.2 step 3 an ordered sequence whose
elements are list-as-map-quirk mappings is normalized before the next key
is looked up; modelled as merging the sequence's mapping elements into one
mapping (concatenating their entries in order; non-mapping elements
contribute nothing), in which the next key is then looked up. -/
def reformat_json_list (xs : List JsonV) : List (String × JsonV) :=
  xs.foldr (fun v acc => (match v with | .obj fs => fs | _ => []) ++ acc) []

/-- One step of the key-path descent in `query` (src/yffpy/query.py lines
79–83): a `list` value is reformatted via `reformat_json_list` and indexed
with `[key]` (Python raises `KeyError` when the key is absent); any other
value is sent `.get(key)`, which on a `dict` returns the value, or `None`
when the key is absent, and on a non-`dict` (scalars and `None` included)
raises `AttributeError`. -/
def stepExtract (v : JsonV) (k : String) : Except PyError JsonV :=
  match v with
  | .arr xs =>
      match getKey (reformat_json_list xs) k with
      | some w => .ok w
      | none => .error (.keyError k)
  | .obj fs => .ok ((getKey fs k).getD .null)
  | _ => .error .attributeError

/-- The key-path descent loop of `query` (src/yffpy/query.py lines 79–83),
one `stepExtract` per entry of `data_key_list`. -/
def extract : JsonV → List String → Except PyError JsonV
  | v, [] => .ok v
  | v, k :: ks =>
      match stepExtract v k with
      | .ok w => extract w ks
      | .error e => .error e

/-- Modelled from the spec: applying `data_type_class` (a model class of the
absent `yffpy/models.py`) constructs "an instance of it from the unpacked
result's top-level fields" (spec §4.2 step 5); a non-mapping argument yields
a model instance with no fields. -/
def constructModel (name : String) (u : UVal) : UVal :=
  match u with
  | .obj fs => .model name fs
  | .model _ fs => .model name fs
  | _ => .model name []

/-- The record returned by a successful `query` call
(src/yffpy/query.py lines 95–99): exactly the fields `data`, `url`, `raw`. -/
structure QueryRecord where
  data : UVal
  url : String
  raw : JsonV
deriving Repr

/-- Possible outcomes of a `query` call: the Python method returns `None`
(the offline branch only logs), raises an exception, or returns a record. -/
inductive QueryOutcome where
  | returnedNone
  | raised (e : PyError)
  | result (r : QueryRecord)
deriving Repr

/-- `YahooFantasyFootballQuery.query` (src/yffpy/query.py lines 64–101).
`responseDoc` stands for the decoded `response.json()` the transport returns
for this request. The second component lists the HTTP requests issued
(empty when no network access was attempted): when not offline the code
issues exactly one GET with `params={"format": "json"}`, extracts
`fantasy_content` via `.get`, walks `data_key_list`, unpacks, optionally
applies `data_type_class`, and returns the `data`/`url`/`raw` record; when
offline it logs an error and falls off the end, returning `None`. -/
def query (st : YahooFantasyFootballQuery) (responseDoc : List (String × JsonV))
    (url : String) (data_key_list : List String)
    (data_type_class : Option String) : QueryOutcome × List HttpRequest :=
  if !st.offline then
    let req : HttpRequest := ⟨url, [("format", "json")]⟩
    let raw0 := (getKey responseDoc "fantasy_content").getD .null
    match extract raw0 data_key_list with
    | .error e => (.raised e, [req])
    | .ok raw =>
        let unpacked := unpack raw
        let clean := match data_type_class with
          | some n => constructModel n unpacked
          | none => unpacked
        (.result ⟨clean, url, raw⟩, [req])
  else
    (.returnedNone, [])

/-- `get_current_nfl_fantasy_game` (src/yffpy/query.py lines 103–105).
`fetch` maps each URL to the decoded response document the transport would
return for it. -/
def get_current_nfl_fantasy_game (st : YahooFantasyFootballQuery)
    (fetch : String → List (String × JsonV)) : QueryOutcome × List HttpRequest :=
  let url := "https://fantasysports.yahooapis.com/fantasy/v2/game/nfl"
  query st (fetch url) url ["game"] (some "Game")

/-- `get_nfl_fantasy_game` (src/yffpy/query.py lines 107–109). -/
def get_nfl_fantasy_game (st : YahooFantasyFootballQuery)
    (fetch : String → List (String × JsonV)) (game_id : String) :
    QueryOutcome × List HttpRequest :=
  let url := "https://fantasysports.yahooapis.com/fantasy/v2/game/" ++ game_id
  query st (fetch url) url ["game"] (some "Game")

/-- Evaluation of `<query outcome>.get("data").game_key` as used by
`get_league_key`: `.get` on `None` (the offline query outcome) raises
`AttributeError`; an exception raised inside `query` propagates; otherwise
the `game_key` attribute of the `data` model instance is read (missing
attribute: `AttributeError`) and must be a string to be concatenated with
`+` (otherwise `TypeError`). -/
def dataGameKey : QueryOutcome → Except PyError String
  | .returnedNone => .error .attributeError
  | .raised e => .error e
  | .result r =>
      match r.data with
      | .model _ flds =>
          match getKeyU flds "game_key" with
          | some (.str s) => .ok s
          | some _ => .error .typeError
          | none => .error .attributeError
      | _ => .error .attributeError

/-- `get_league_key` (src/yffpy/query.py lines 111–120). Returns the result,
the instance state after the call, and the HTTP requests issued. The method
reads `self.league_key` but never assigns it, so the state comes back
unchanged on every path. -/
def get_league_key (st : YahooFantasyFootballQuery)
    (fetch : String → List (String × JsonV)) :
    Except PyError String × YahooFantasyFootballQuery × List HttpRequest :=
  if !pyTruthy st.league_key then
    if pyTruthy st.game_id then
      let r := get_nfl_fantasy_game st fetch (st.game_id.getD "")
      match dataGameKey r.1 with
      | .ok gk => (.ok (gk ++ ".l." ++ st.league_id), st, r.2)
      | .error e => (.error e, st, r.2)
    else
      let r := get_current_nfl_fantasy_game st fetch
      match dataGameKey r.1 with
      | .ok gk => (.ok (gk ++ ".l." ++ st.league_id), st, r.2)
      | .error e => (.error e, st, r.2)
  else
    (.ok (st.league_key.getD ""), st, [])

/-- File operations performed during construction: `os.path.isfile`,
`open(...)`+`json.load`, `open(..., "w")`+`json.dump`. -/
inductive FileOp where
  | statFile (path : String)
  | readFile (path : String)
  | writeFile (path : String)
deriving Repr, DecidableEq

/-- The directory contents seen by the constructor: a mapping from file
path to the decoded JSON document stored there. -/
structure FS where
  files : List (String × JsonV)
deriving Repr

/-- Read a file as a decoded JSON document (`none`: the file is absent). -/
def FS.read (fs : FS) (p : String) : Option JsonV := getKey fs.files p

/-- Set (insert or overwrite) an association-list entry. -/
def setKey (fields : List (String × JsonV)) (k : String) (v : JsonV) :
    List (String × JsonV) :=
  match fields with
  | [] => [(k, v)]
  | (k', w) :: rest => if k' = k then (k, v) :: rest else (k', w) :: setKey rest k v

/-- Write a JSON document to a file path. -/
def FS.write (fs : FS) (p : String) (v : JsonV) : FS := ⟨setKey fs.files p v⟩

/-- `os.path.join` for the two paths the constructor builds. -/
def pathJoin (d f : String) : String := d ++ "/" ++ f

/-- Python mapping indexing `d[k]`: `KeyError` when the key is absent,
`TypeError` when the value is not a mapping. -/
def indexKey (v : JsonV) (k : String) : Except PyError JsonV :=
  match v with
  | .obj fs =>
      match getKey fs k with
      | some w => .ok w
      | none => .error (.keyError k)
  | _ => .error .typeError

/-- Tail of the constructor (src/yffpy/query.py lines 55–62): check
`"access_token" in auth_info.keys()` (an `AttributeError` if `auth_info` is
not a mapping), set `_yahoo_access_token` when present, then create the
external `OAuth2` session from the token file path. -/
def finishInit (st : YahooFantasyFootballQuery) (authInfo : JsonV)
    (tokenPath : String) (fs : FS) (ops : List FileOp) :
    Except PyError (YahooFantasyFootballQuery × FS × List FileOp) :=
  match authInfo with
  | .obj flds =>
      let st' := match getKey flds "access_token" with
        | some tok => { st with yahoo_access_token := some tok }
        | none => st
      .ok ({ st' with oauth := some tokenPath }, fs, ops)
  | _ => .error .attributeError

/-- `YahooFantasyFootballQuery.__init__` (src/yffpy/query.py lines 23–62).
Returns the constructed instance, the file system after the call, and the
file operations performed, or the raised error. When not offline: read
`auth_dir/private.json`, take `consumer_key` and `consumer_secret` by
indexing, then read `auth_dir/token.json` if it exists, else persist the
credential document to it; finally record the access token when present and
create the external `OAuth2` session (out of scope per the spec; recorded
as the `oauth` field). When offline the body after the four attribute
assignments is skipped entirely. -/
def initQuery (auth_dir league_id : String) (game_id : Option String)
    (offline : Bool) (fs : FS) :
    Except PyError (YahooFantasyFootballQuery × FS × List FileOp) :=
  let st0 : YahooFantasyFootballQuery :=
    { league_id := league_id, game_id := game_id, league_key := none,
      offline := offline, yahoo_consumer_key := none,
      yahoo_consumer_secret := none, yahoo_access_token := none,
      oauth := none }
  if !offline then
    let privatePath := pathJoin auth_dir "private.json"
    match fs.read privatePath with
    | none => .error (.fileNotFoundError privatePath)
    | some credDoc =>
      match indexKey credDoc "consumer_key" with
      | .error e => .error e
      | .ok ck =>
        match indexKey credDoc "consumer_secret" with
        | .error e => .error e
        | .ok cs =>
          let st1 := { st0 with yahoo_consumer_key := some ck,
                                yahoo_consumer_secret := some cs }
          let tokenPath := pathJoin auth_dir "token.json"
          let ops0 := [FileOp.readFile privatePath, FileOp.statFile tokenPath]
          match fs.read tokenPath with
          | some tokDoc =>
              finishInit st1 tokDoc tokenPath fs
                (ops0 ++ [FileOp.readFile tokenPath])
          | none =>
              finishInit st1 credDoc tokenPath (fs.write tokenPath credDoc)
                (ops0 ++ [FileOp.writeFile tokenPath])
  else
    .ok (st0, fs, [])

/-- A façade configured online with an explicit game id, for concrete runs
of `get_league_key`. -/
def leagueKeyState : YahooFantasyFootballQuery :=
  ⟨"12345", some "390", none, false, none, none, none, none⟩

/-- A transport returning a game document for the game-390 URL and an empty
document for every other URL. -/
def leagueKeyFetch : String → List (String × JsonV) := fun url =>
  if url = "https://fantasysports.yahooapis.com/fantasy/v2/game/390" then
    [("fantasy_content", .obj [("game",
        .obj [("game_key", .str "390"), ("name", .str "nfl")])])]
  else []

/-- A directory holding only the credential file, for a concrete run of the
constructor. -/
def credOnlyFS : FS :=
  ⟨[("auth/private.json",
     .obj [("consumer_key", .str "ck"), ("consumer_secret", .str "cs")])]⟩

/-- The instance the constructor builds from `credOnlyFS`. -/
def credOnlyState : YahooFantasyFootballQuery :=
  { league_id := "12345", game_id := none, league_key := none,
    offline := false, yahoo_consumer_key := some (.str "ck"),
    yahoo_consumer_secret := some (.str "cs"), yahoo_access_token := none,
    oauth := some "auth/token.json" }

/-- The directory after the constructor persisted the token file from
`credOnlyFS`. -/
def credOnlyFSAfter : FS :=
  ⟨[("auth/private.json",
     .obj [("consumer_key", .str "ck"), ("consumer_secret", .str "cs")]),
    ("auth/token.json",
     .obj [("consumer_key", .str "ck"), ("consumer_secret", .str "cs")])]⟩

/-- Promotion never changes an entry's key. -/
theorem promoteEntry_fst (p : String × UVal) : (promoteEntry p).1 = p.1 := by
  unfold promoteEntry
  split
  · rfl
  · rfl

/-- `unpackList` is the elementwise map of `unpack`. -/
theorem unpackList_eq_map (xs : List JsonV) : unpackList xs = xs.map unpack := by
  induction xs with
  | nil => rfl
  | cons x xs ih => simp [unpackList, ih]

/-- `unpackFields` maps `unpack` over the values, keys untouched. -/
theorem unpackFields_eq_map (flds : List (String × JsonV)) :
    unpackFields flds = flds.map (fun p => (p.1, unpack p.2)) := by
  induction flds with
  | nil => rfl
  | cons p rest ih =>
      obtain ⟨k, v⟩ := p
      simp [unpackFields, ih]

/-- Writing a file and reading it back yields the written document. -/
theorem getKey_setKey_self (l : List (String × JsonV)) (k : String) (v : JsonV) :
    getKey (setKey l k v) k = some v := by
  induction l with
  | nil => simp [setKey, getKey]
  | cons p rest ih =>
      obtain ⟨k', w⟩ := p
      by_cases hk : k' = k
      · simp [setKey, hk, getKey]
      · simp [setKey, hk, getKey, ih]

/-- A not-offline `query` issues exactly one GET carrying the
`format=json` query parameter, whatever the extraction outcome. -/
theorem query_requests (st : YahooFantasyFootballQuery)
    (doc : List (String × JsonV)) (url : String) (keys : List String)
    (cls : Option String) (h : st.offline = false) :
    (query st doc url keys cls).2 = [⟨url, [("format", "json")]⟩] := by
  simp only [query, h, Bool.not_false, if_true]
  split <;> rfl

/-- C1: the claim says a `query` call on an offline façade fails with an
`OfflineModeUnavailable` error distinguishable to the caller. The code
instead logs and returns `None`: for every offline façade, `query` returns
`None` (no distinguishable error value) — while indeed attempting no
network access. -/
theorem offline_query_returns_none (st : YahooFantasyFootballQuery)
    (doc : List (String × JsonV)) (url : String) (keys : List String)
    (cls : Option String) (h : st.offline = true) :
    query st doc url keys cls = (.returnedNone, []) := by
  simp [query, h]

/-- Witness for `offline_query_returns_none` at a concrete offline façade. -/
theorem offline_query_returns_none_witness :
    query ⟨"12345", none, none, true, none, none, none, none⟩ []
      "https://fantasysports.yahooapis.com/fantasy/v2/game/nfl" ["game"]
      (some "Game") = (.returnedNone, []) :=
  offline_query_returns_none _ _ _ _ _ rfl

/-- C2 counterexample: the claim says `query` fails with a
`KeyPathNotFound` error whenever a key of the path is absent; here the key
"standings" is absent at the final step, yet `query` returns a normal
result record (with `None` data) instead of failing. -/
theorem missing_final_key_returns_result_cex :
    query ⟨"12345", none, none, false, none, none, none, none⟩
      [("fantasy_content", .obj [("league", .obj [])])]
      "u" ["league", "standings"] none
    = (.result ⟨.null, "u", .null⟩, [⟨"u", [("format", "json")]⟩]) := rfl

/-- C2 (amended): a key absent at a mapping step of the descent yields
`None` via `dict.get` rather than a `KeyPathNotFound` error: absent at the
final step, `query` returns a normal record with `None` raw and data;
absent at a non-final step, the next step's `.get` on `None` raises
`AttributeError`; in the sequence branch an absent key raises `KeyError`. -/
theorem missing_key_descent_behavior (st : YahooFantasyFootballQuery)
    (doc flds : List (String × JsonV)) (url k : String)
    (hoff : st.offline = false)
    (hfc : getKey doc "fantasy_content" = some (.obj flds))
    (hk : getKey flds k = none) :
    query st doc url [k] none
      = (.result ⟨.null, url, .null⟩, [⟨url, [("format", "json")]⟩]) ∧
    (∀ k2 ks, query st doc url (k :: k2 :: ks) none
      = (.raised .attributeError, [⟨url, [("format", "json")]⟩])) ∧
    (∀ xs k', getKey (reformat_json_list xs) k' = none →
       extract (.arr xs) [k'] = .error (.keyError k')) := by
  refine ⟨?_, ?_, ?_⟩
  · simp [query, hoff, extract, stepExtract, hfc, hk, unpack]
  · intro k2 ks
    simp [query, hoff, extract, stepExtract, hfc, hk]
  · intro xs k' h'
    simp [extract, stepExtract, h']

/-- Witness for `missing_key_descent_behavior` at concrete inputs (the key
"standings" is absent from the extracted `league`-less document). -/
theorem missing_key_descent_behavior_witness :
    query ⟨"1", none, none, false, none, none, none, none⟩
      [("fantasy_content", .obj [("league", .obj [])])] "w" ["standings"]
      none
      = (.result ⟨.null, "w", .null⟩, [⟨"w", [("format", "json")]⟩]) ∧
    query ⟨"1", none, none, false, none, none, none, none⟩
      [("fantasy_content", .obj [("league", .obj [])])] "w"
      ["standings", "a", "b"] none
      = (.raised .attributeError, [⟨"w", [("format", "json")]⟩]) ∧
    extract (.arr []) ["x"] = .error (.keyError "x") :=
  ⟨(missing_key_descent_behavior ⟨"1", none, none, false, none, none, none,
      none⟩ [("fantasy_content", .obj [("league", .obj [])])]
      [("league", .obj [])] "w" "standings" rfl rfl rfl).1,
   (missing_key_descent_behavior ⟨"1", none, none, false, none, none, none,
      none⟩ [("fantasy_content", .obj [("league", .obj [])])]
      [("league", .obj [])] "w" "standings" rfl rfl rfl).2.1 "a" ["b"],
   (missing_key_descent_behavior ⟨"1", none, none, false, none, none, none,
      none⟩ [("fantasy_content", .obj [("league", .obj [])])]
      [("league", .obj [])] "w" "standings" rfl rfl rfl).2.2 [] "x" rfl⟩

/-- C3: `get_league_key` does return exactly
`"<game_key>.l.<league_id>"`, but the caching half of the claim fails on
the code: the method never assigns `self.league_key`, so the state comes
back with `league_key` still `None` and an immediately repeated call
issues the game-id lookup request again. -/
theorem league_key_concat_no_caching :
    (get_league_key leagueKeyState leagueKeyFetch).1 = .ok "390.l.12345" ∧
    (get_league_key leagueKeyState leagueKeyFetch).2.1.league_key = none ∧
    (get_league_key leagueKeyState leagueKeyFetch).2.2 =
      [⟨"https://fantasysports.yahooapis.com/fantasy/v2/game/390",
        [("format", "json")]⟩] ∧
    (get_league_key
        (get_league_key leagueKeyState leagueKeyFetch).2.1
        leagueKeyFetch).2.2 =
      [⟨"https://fantasysports.yahooapis.com/fantasy/v2/game/390",
        [("format", "json")]⟩] :=
  ⟨rfl, rfl, rfl, rfl⟩

/-- C4: at each step of the key-path descent in `query`, a `list` value is
first normalized by `reformat_json_list` and the key is looked up in the
normalized mapping (absent key: `KeyError`), while a `dict` value has the
key looked up directly via `.get`. -/
theorem descent_step_list_normalization :
    (∀ xs k ks, extract (.arr xs) (k :: ks) =
       (match getKey (reformat_json_list xs) k with
        | some w => extract w ks
        | none => .error (.keyError k))) ∧
    (∀ flds k ks, extract (.obj flds) (k :: ks) =
       extract ((getKey flds k).getD .null) ks) := by
  constructor
  · intro xs k ks
    cases h : getKey (reformat_json_list xs) k <;>
      simp [extract, stepExtract, h]
  · intro flds k ks
    rfl

/-- C5: every successful `query` call returns a record whose `data` field
is the `data_type_class` instance built from the unpacked result when a
class is given and the unpacked result itself otherwise, whose `url` field
is the original request URL, and whose `raw` field is the pre-unpack,
post-extraction sub-document. -/
theorem query_success_record (st : YahooFantasyFootballQuery)
    (doc : List (String × JsonV)) (url : String) (keys : List String)
    (cls : Option String) (raw : JsonV)
    (hoff : st.offline = false)
    (hx : extract ((getKey doc "fantasy_content").getD .null) keys = .ok raw) :
    query st doc url keys cls =
      (.result ⟨(match cls with
                 | some n => constructModel n (unpack raw)
                 | none => unpack raw), url, raw⟩,
       [⟨url, [("format", "json")]⟩]) := by
  simp [query, hoff, hx]

/-- Witness for `query_success_record` at a concrete successful call. -/
theorem query_success_record_witness :
    query ⟨"1", none, none, false, none, none, none, none⟩
      [("fantasy_content", .obj [("league", .obj [])])] "u" ["league"]
      (some "League")
    = (.result ⟨.model "League" [], "u", .obj []⟩,
       [⟨"u", [("format", "json")]⟩]) :=
  query_success_record _ _ _ _ _ (.obj []) rfl rfl

/-- C6: on a mapping matching the list-as-map quirk, `unpack` drops the
"count" entry and returns the remaining values as an ordered sequence
sorted by ascending integer key (`quirkValues` = drop "count", sort by
parsed integer key ascending, take values); in particular the spec's
example mapping evaluates to the sequence `["x", "y"]`. -/
theorem unpack_quirk_normalization (flds : List (String × JsonV))
    (h : isQuirk (flds.map Prod.fst) = true) :
    unpack (.obj flds) =
      .arr (quirkValues (flds.map (fun p => (p.1, unpack p.2)))) ∧
    unpack (.obj [("0", .str "x"), ("1", .str "y"), ("count", .num 2)])
      = .arr [.str "x", .str "y"] := by
  constructor
  · simp [unpack, h, unpackFields_eq_map]
  · rfl

/-- Witness for `unpack_quirk_normalization` at the spec's example. -/
theorem unpack_quirk_normalization_witness :
    unpack (.obj [("0", .str "x"), ("1", .str "y"), ("count", .num 2)]) =
      .arr (quirkValues ([("0", JsonV.str "x"), ("1", JsonV.str "y"),
        ("count", JsonV.num 2)].map (fun p => (p.1, unpack p.2)))) ∧
    unpack (.obj [("0", .str "x"), ("1", .str "y"), ("count", .num 2)])
      = .arr [.str "x", .str "y"] :=
  unpack_quirk_normalization _ rfl

/-- C7: a malformed quirk-like mapping (one that fails the quirk check,
e.g. non-contiguous integer keys or integer keys not starting at 0) is
unpacked as a genuine mapping — same keys, values unpacked — and `unpack`
is a total function, so no input makes it raise; in particular the spec's
example `{"1": "x", "count": 1}` stays a mapping. -/
theorem unpack_malformed_quirk_stays_mapping (flds : List (String × JsonV))
    (h : isQuirk (flds.map Prod.fst) = false) :
    (unpack (.obj flds) =
       .obj ((flds.map (fun p => (p.1, unpack p.2))).map promoteEntry) ∧
     ((flds.map (fun p => (p.1, unpack p.2))).map promoteEntry).map Prod.fst
       = flds.map Prod.fst) ∧
    unpack (.obj [("1", .str "x"), ("count", .num 1)])
      = .obj [("1", .str "x"), ("count", .num 1)] := by
  refine ⟨⟨?_, ?_⟩, rfl⟩
  · simp [unpack, h, unpackFields_eq_map]
  · simp [List.map_map, Function.comp, promoteEntry_fst]

/-- Witness for `unpack_malformed_quirk_stays_mapping` at the spec's
example of a malformed quirk-like mapping. -/
theorem unpack_malformed_quirk_stays_mapping_witness :
    (unpack (.obj [("1", JsonV.str "x"), ("count", JsonV.num 1)]) =
       .obj (([("1", JsonV.str "x"), ("count", JsonV.num 1)].map
         (fun p => (p.1, unpack p.2))).map promoteEntry) ∧
     (([("1", JsonV.str "x"), ("count", JsonV.num 1)].map
         (fun p => (p.1, unpack p.2))).map promoteEntry).map Prod.fst
       = [("1", JsonV.str "x"), ("count", JsonV.num 1)].map Prod.fst) ∧
    unpack (.obj [("1", .str "x"), ("count", .num 1)])
      = .obj [("1", .str "x"), ("count", .num 1)] :=
  unpack_malformed_quirk_stays_mapping _ rfl

/-- C8: `unpack` returns every scalar unchanged, and on an ordered
sequence returns the elementwise unpacking: same length, i-th element the
unpacking of the input's i-th element, order preserved. -/
theorem unpack_scalar_and_sequence :
    (∀ s, unpack (.str s) = .str s) ∧
    (∀ n, unpack (.num n) = .num n) ∧
    (∀ b, unpack (.bool b) = .bool b) ∧
    unpack .null = .null ∧
    (∀ xs : List JsonV,
       unpack (.arr xs) = .arr (xs.map unpack) ∧
       (xs.map unpack).length = xs.length ∧
       ∀ i : Nat, (xs.map unpack)[i]? = (xs[i]?).map unpack) := by
  refine ⟨fun s => rfl, fun n => rfl, fun b => rfl, rfl, fun xs =>
    ⟨?_, by simp, fun i => by simp⟩⟩
  simp [unpack, unpackList_eq_map]

/-- C9: a not-offline construction reads the token file if it exists (the
access token attribute comes from the token document's own "access_token"
entry, and the file system is left unchanged), otherwise persists the
credential file's document to the token path; and every `query` call
through the constructed (not-offline) façade carries the `format=json`
query parameter on its single GET request. -/
theorem init_token_bootstrap_format_param
    (auth_dir league_id : String) (gid : Option String) (fs : FS)
    (st : YahooFantasyFootballQuery) (fs' : FS) (ops : List FileOp)
    (h : initQuery auth_dir league_id gid false fs = .ok (st, fs', ops)) :
    ((fs.read (pathJoin auth_dir "token.json")).isSome → fs' = fs) ∧
    (∀ tflds, fs.read (pathJoin auth_dir "token.json") = some (.obj tflds) →
       st.yahoo_access_token = getKey tflds "access_token") ∧
    (fs.read (pathJoin auth_dir "token.json") = none →
       fs'.read (pathJoin auth_dir "token.json") =
         fs.read (pathJoin auth_dir "private.json")) ∧
    st.offline = false ∧
    (∀ doc url keys cls, (query st doc url keys cls).2 =
       [⟨url, [("format", "json")]⟩]) := by
  unfold initQuery at h
  simp only [Bool.not_false, if_true] at h
  split at h
  · exact absurd h (by simp)
  · rename_i credDoc hp
    split at h
    · exact absurd h (by simp)
    · rename_i ck hck
      split at h
      · exact absurd h (by simp)
      · rename_i cs hcs
        split at h
        · rename_i tokDoc ht
          unfold finishInit at h
          split at h
          · rename_i tflds
            simp only [Except.ok.injEq, Prod.mk.injEq] at h
            obtain ⟨hst, hfs, hops⟩ := h
            refine ⟨fun _ => hfs.symm, ?_, ?_, ?_, ?_⟩
            · intro tflds' htf
              rw [ht, Option.some_inj] at htf
              injection htf with htf2
              subst htf2
              rw [← hst]
              cases hat : getKey tflds "access_token" <;> simp [hat]
            · intro hnone; rw [ht] at hnone; cases hnone
            · rw [← hst]
              cases getKey tflds "access_token" <;> rfl
            · intro doc url keys cls
              apply query_requests
              rw [← hst]
              cases getKey tflds "access_token" <;> rfl
          · exact absurd h (by simp)
        · rename_i ht
          unfold finishInit at h
          split at h
          · rename_i cflds
            simp only [Except.ok.injEq, Prod.mk.injEq] at h
            obtain ⟨hst, hfs, hops⟩ := h
            refine ⟨?_, ?_, ?_, ?_, ?_⟩
            · intro hsome; rw [ht] at hsome; cases hsome
            · intro tflds' htf; rw [ht] at htf; cases htf
            · intro _
              rw [← hfs, hp]
              exact getKey_setKey_self fs.files (pathJoin auth_dir
                "token.json") (.obj cflds)
            · rw [← hst]
              cases getKey cflds "access_token" <;> rfl
            · intro doc url keys cls
              apply query_requests
              rw [← hst]
              cases getKey cflds "access_token" <;> rfl
          · exact absurd h (by simp)

/-- Witness for `init_token_bootstrap_format_param`: a concrete
construction over a directory with only the credential file persists it to
the token path, and a query through the built façade carries format=json. -/
theorem init_token_bootstrap_format_param_witness :
    credOnlyFSAfter.read (pathJoin "auth" "token.json") =
      credOnlyFS.read (pathJoin "auth" "private.json") ∧
    (query credOnlyState [] "u" ["league"] none).2 =
      [⟨"u", [("format", "json")]⟩] :=
  ⟨(init_token_bootstrap_format_param "auth" "12345" none credOnlyFS
      credOnlyState credOnlyFSAfter
      [.readFile "auth/private.json", .statFile "auth/token.json",
       .writeFile "auth/token.json"] rfl).2.2.1 rfl,
   (init_token_bootstrap_format_param "auth" "12345" none credOnlyFS
      credOnlyState credOnlyFSAfter
      [.readFile "auth/private.json", .statFile "auth/token.json",
       .writeFile "auth/token.json"] rfl).2.2.2.2 [] "u" ["league"] none⟩

/-- C10: constructing the façade with offline=True performs no file
operation (the file system comes back untouched and the operation log is
empty) and no OAuth handshake; the state established is exactly
`league_id`, `game_id`, `league_key = None` and `offline`, while the
consumer credentials, the access token and the oauth session are never
set. -/
theorem offline_init_no_effects (auth_dir league_id : String)
    (gid : Option String) (fs : FS) :
    initQuery auth_dir league_id gid true fs =
      .ok ({ league_id := league_id, game_id := gid, league_key := none,
             offline := true, yahoo_consumer_key := none,
             yahoo_consumer_secret := none, yahoo_access_token := none,
             oauth := none }, fs, []) := rfl
